import Mathlib

/-!
Shallow embedding of the MicroPython `rgbpixel` driver (`rgbpixel.py`).

The driver stores one RGB pixel value (three channel records, each holding an
8-bit `value` and a handle to a `machine.PWM` collaborator) together with an
optional scaler, and pushes duty-cycle values to the three PWM collaborators
on `write()`.

Modelling decisions:
* Python integers are `ℤ`.  Python `%` on a positive modulus is `Int.emod`
  (Lean's `%` on `ℤ`), Python `<<`/`>>` are multiplication/floor-division by a
  power of two, and Python `|` on unbounded two's-complement integers is
  `Int.lor`.
* Python floats (scaler multipliers) are modelled as exact rationals `ℚ`;
  Python's `round` (round half to even) is `pyRound`.
* The three PWM collaborators are modelled by a per-channel failure flag
  (whether the collaborator's `duty` call raises) and a global `trace` of
  hardware events: one `create` event per `PWM(...)` construction and one
  `duty` event per successful `PWM.duty(...)` delivery.
* Python exceptions become an explicit error component (`Option PyErr` or
  `Except`); a raising call returns the state reached at the raise point.
-/

/-- Python `<<` on unbounded integers: `v << n = v * 2 ^ n`. -/
def pyShiftLeft (v : ℤ) (n : ℕ) : ℤ := v * 2 ^ n

/-- Python `>>` on unbounded integers is an arithmetic (floor) shift:
`v >> n = ⌊v / 2 ^ n⌋`, i.e. `Int.fdiv`. -/
def pyShiftRight (v : ℤ) (n : ℕ) : ℤ := Int.fdiv v (2 ^ n)

/-- Python `|` on unbounded integers (two's-complement bitwise or). -/
def pyOr (a b : ℤ) : ℤ := Int.lor a b

/-- Python's builtin `round` with the float/exact "round half to even"
tie-breaking rule, on exact rationals. -/
def pyRound (q : ℚ) : ℤ :=
  if q - ⌊q⌋ < 1/2 then ⌊q⌋
  else if 1/2 < q - ⌊q⌋ then ⌊q⌋ + 1
  else if ⌊q⌋ % 2 = 0 then ⌊q⌋ else ⌊q⌋ + 1

/-- The 8-to-10-bit expansion applied to each channel inside
`RGBPixel.write` (rgbpixel.py lines 138-141):
`red = ( red << 2 ) | ( red >> 6 )`. -/
def expand10 (v : ℤ) : ℤ := pyOr (pyShiftLeft v 2) (pyShiftRight v 6)

/-- The normalization rule as the specification words it:
`normalize(x) == ((x % 256) + 256) % 256`. -/
def specNormalize (x : ℤ) : ℤ := ((x % 256) + 256) % 256

/-- The scaler configured at construction: Python `None` (identity), a
three-element tuple of float multipliers (modelled as rationals), or a
callable taking and returning a pixel triple.  `RGBPixel.write` dispatches
with `callable(self.scaler)` / `self.scaler is not None`, which is exactly a
case split on these three shapes. -/
inductive Scaler where
  | none : Scaler
  | linear (m0 m1 m2 : ℚ) : Scaler
  | fn (f : ℤ × ℤ × ℤ → ℤ × ℤ × ℤ) : Scaler

/-- Python exceptions raised by the driver or its PWM collaborators. -/
inductive PyErr where
  | valueError (msg : String) : PyErr
  | indexError (msg : String) : PyErr
  | hwFault : PyErr
deriving DecidableEq

/-- The three color channels, in the fixed order the driver addresses them. -/
inductive ChannelId where
  | red | green | blue
deriving DecidableEq

/-- Observable hardware interactions with the PWM collaborators:
`create` for `PWM(pin, freq, duty = d, invert = inv)` and `duty` for a
successful `px.duty(v)` delivery. -/
inductive HWEvent where
  | create (c : ChannelId) (freq : ℤ) (duty : ℤ) (invert : Bool) : HWEvent
  | duty (c : ChannelId) (v : ℤ) : HWEvent
deriving DecidableEq

/-- One channel record, mirroring the Python dict
`{ 'value': v, 'px': PWM(...) }`.  The opaque PWM collaborator is represented
by its one observable behaviour: whether its `duty` call raises. -/
structure Chan where
  value : ℤ
  fails : Bool
deriving DecidableEq

/-- The `RGBPixel` object: the configured scaler, the three channel records,
and the trace of hardware events observed so far by the PWM collaborators. -/
structure RGBPixel where
  scaler : Scaler
  red : Chan
  green : Chan
  blue : Chan
  trace : List HWEvent

/-- One `px.duty(v)` call on the collaborator of channel `c`: if that
collaborator fails, the exception propagates and nothing is delivered;
otherwise the delivered value is appended to the hardware trace. -/
def RGBPixel.dutyCall (p : RGBPixel) (c : ChannelId) (v : ℤ) :
    RGBPixel × Option PyErr :=
  let fails := match c with
    | .red => p.red.fails
    | .green => p.green.fails
    | .blue => p.blue.fails
  if fails then (p, some .hwFault)
  else ({ p with trace := p.trace ++ [.duty c v] }, none)

/-- The scaler application step of `RGBPixel.write` (lines 127-136): read the
three stored channel values and dispatch on the scaler shape. -/
def RGBPixel.scaledValues (p : RGBPixel) : ℤ × ℤ × ℤ :=
  let red := p.red.value
  let green := p.green.value
  let blue := p.blue.value
  match p.scaler with
  | .fn f => f (red, green, blue)
  | .linear m0 m1 m2 =>
      (pyRound (red * m0), pyRound (green * m1), pyRound (blue * m2))
  | .none => (red, green, blue)

/-- The duty values computed by `RGBPixel.write` (lines 127-141): the scaled
values, each expanded from 8 to 10 bits. -/
def RGBPixel.dutyValues (p : RGBPixel) : ℤ × ℤ × ℤ :=
  (expand10 p.scaledValues.1, expand10 p.scaledValues.2.1,
   expand10 p.scaledValues.2.2)

/-- The sequence of hardware events one successful `write` delivers, in the
order the source issues them (lines 143-145): red, then green, then blue. -/
def RGBPixel.dutyEvents (p : RGBPixel) : List HWEvent :=
  [.duty .red p.dutyValues.1, .duty .green p.dutyValues.2.1,
   .duty .blue p.dutyValues.2.2]

/-- Embedding of `RGBPixel.write` (lines 124-145): compute the three duty values, then
deliver them to the red, green and blue collaborators in that order; an
exception from a collaborator propagates immediately. -/
def RGBPixel.write (p : RGBPixel) : RGBPixel × Option PyErr :=
  let d := p.dutyValues
  match p.dutyCall .red d.1 with
  | (p1, some e) => (p1, some e)
  | (p1, Option.none) =>
    match p1.dutyCall .green d.2.1 with
    | (p2, some e) => (p2, some e)
    | (p2, Option.none) => p2.dutyCall .blue d.2.2

/-- Embedding of `RGBPixel.__setitem__` (lines 153-162).  The value is a Python sequence;
`value[k]` on a too-short sequence raises `IndexError('tuple index out of
range')` after the earlier components were already stored. -/
def RGBPixel.setitem (p : RGBPixel) (index : ℤ) (value : List ℤ) :
    RGBPixel × Option PyErr :=
  if index ≠ 0 then (p, some (.indexError "Strip index out of range"))
  else
    match value[0]? with
    | Option.none => (p, some (.indexError "tuple index out of range"))
    | some v0 =>
      let p := { p with red := { p.red with value := v0 % 256 } }
      match value[1]? with
      | Option.none => (p, some (.indexError "tuple index out of range"))
      | some v1 =>
        let p := { p with green := { p.green with value := v1 % 256 } }
        match value[2]? with
        | Option.none => (p, some (.indexError "tuple index out of range"))
        | some v2 =>
          ({ p with blue := { p.blue with value := v2 % 256 } }, none)

/-- Embedding of `RGBPixel.__getitem__` (lines 164-171). -/
def RGBPixel.getitem (p : RGBPixel) (index : ℤ) : Except PyErr (ℤ × ℤ × ℤ) :=
  if index ≠ 0 then .error (.indexError "Strip index out of range")
  else .ok (p.red.value, p.green.value, p.blue.value)

/-- Embedding of `RGBPixel.fill` (lines 147-151): `self[0] = value`. -/
def RGBPixel.fill (p : RGBPixel) (value : List ℤ) : RGBPixel × Option PyErr :=
  p.setitem 0 value

/-- Embedding of `RGBPixel.__len__` (lines 173-177). -/
def RGBPixel.len (_ : RGBPixel) : ℤ := 1

/-- Embedding of `RGBPixel.__init__` (lines 93-122).  Pin handles and the ignored `timing`
argument are opaque and not modelled; the PWM construction of each channel
(with initial duty 0) is recorded as a `create` event.  After validating the
NeoPixel-compatibility arguments `n` and `bpp`, the constructor stores the
scaler, creates the three channel records with value 0, and performs one
`write`; an exception anywhere propagates together with the hardware trace
reached at that point. -/
def RGBPixel.init (n bpp : ℤ) (invert : Bool) (freq : ℤ) (scaler : Scaler)
    (redFails greenFails blueFails : Bool) (t0 : List HWEvent) :
    Except (PyErr × List HWEvent) RGBPixel :=
  if n ≠ 1 then .error (.valueError "Only 1 pixel long strip is supported", t0)
  else if bpp ≠ 3 then .error (.valueError "Only an RGB pixel is supported", t0)
  else
    let p : RGBPixel :=
      { scaler := scaler
        red := { value := 0, fails := redFails }
        green := { value := 0, fails := greenFails }
        blue := { value := 0, fails := blueFails }
        trace := t0 ++ [.create .red freq 0 invert, .create .green freq 0 invert,
                        .create .blue freq 0 invert] }
    match p.write with
    | (p1, Option.none) => .ok p1
    | (p1, some e) => .error (e, p1.trace)

/-- Embedding of `RGBPixel.SMLP34RGB_lumi_scaler` (lines 183-189), float constants taken
as exact rationals. -/
def SMLP34RGB_lumi_scaler (pixel : ℤ × ℤ × ℤ) : ℤ × ℤ × ℤ :=
  (pixel.1, pyRound (pixel.2.1 * (3182/10000)), pyRound (pixel.2.2 * (875/1000)))

/-- Embedding of `RGBPixel.SMLP34RGB_photopic_scaler` (lines 191-198), float constants
taken as exact rationals. -/
def SMLP34RGB_photopic_scaler (pixel : ℤ × ℤ × ℤ) : ℤ × ℤ × ℤ :=
  (pyRound (pixel.1 * (2521/10000)), pyRound (pixel.2.1 * (1056/10000)), pixel.2.2)

example : expand10 0 = 0 := by decide
example : expand10 255 = 1023 := by decide
example : expand10 128 = 514 := by decide
example : expand10 90 = 361 := by decide
example : (-5 : ℤ) % 256 = 251 := by decide

/-! Helper lemmas shared between the claim theorems. -/

set_option maxRecDepth 8000 in
/-- On the 8-bit range the expansion has the arithmetic closed form
`4 * v + v / 64` (the two shifted copies do not overlap). -/
lemma expand10_closed : ∀ v : ℕ, v < 256 → expand10 (v : ℤ) = 4 * (v : ℤ) + (v : ℤ) / 64 := by
  decide

/-- The spec's normalization formula collapses to a single Euclidean
remainder, which is exactly what `value[k] % 256` computes in Python. -/
lemma specNormalize_eq (x : ℤ) : specNormalize x = x % 256 := by
  unfold specNormalize
  omega

/-- C1: for every v in [0,255], the 8-to-10-bit expansion applied inside
commit (write) equals `(v << 2) | (v >> 6)`; in particular `expand10 0 = 0`
and `expand10 255 = 1023`, and the mapping is monotonic on [0,255]. -/
theorem expand10_law :
    (∀ p : RGBPixel,
      p.dutyValues = (expand10 p.scaledValues.1, expand10 p.scaledValues.2.1,
        expand10 p.scaledValues.2.2))
    ∧ (∀ v : ℤ, 0 ≤ v → v ≤ 255 →
        expand10 v = pyOr (pyShiftLeft v 2) (pyShiftRight v 6))
    ∧ expand10 0 = 0 ∧ expand10 255 = 1023
    ∧ ∀ v1 v2 : ℤ, 0 ≤ v1 → v1 < v2 → v2 ≤ 255 → expand10 v1 ≤ expand10 v2 := by
  refine ⟨fun p => rfl, fun v _ _ => rfl, by decide, by decide, ?_⟩
  intro v1 v2 h0 hlt hub
  have h0' : 0 ≤ v2 := le_trans h0 (le_of_lt hlt)
  have e1 : ((v1.toNat : ℤ)) = v1 := Int.toNat_of_nonneg h0
  have e2 : ((v2.toNat : ℤ)) = v2 := Int.toNat_of_nonneg h0'
  have c1 := expand10_closed v1.toNat (by omega)
  have c2 := expand10_closed v2.toNat (by omega)
  rw [e1] at c1
  rw [e2] at c2
  rw [c1, c2]
  omega

/-- Witness for C1 at concrete inputs. -/
theorem expand10_law_witness :
    expand10 100 ≤ expand10 200
    ∧ expand10 7 = pyOr (pyShiftLeft 7 2) (pyShiftRight 7 6) :=
  ⟨expand10_law.2.2.2.2 100 200 (by decide) (by decide) (by decide),
   expand10_law.2.1 7 (by decide) (by decide)⟩

/-- Replacing the trace leaves the computed duty events unchanged: they only
depend on the scaler and the stored channel values. -/
lemma dutyEvents_trace (p : RGBPixel) (t : List HWEvent) :
    RGBPixel.dutyEvents { p with trace := t } = p.dutyEvents := rfl

/-- When no collaborator fails, `write` succeeds and appends exactly the
three duty events, in source order. -/
lemma write_ok (p : RGBPixel) (hr : p.red.fails = false)
    (hg : p.green.fails = false) (hb : p.blue.fails = false) :
    p.write = ({ p with trace := p.trace ++ p.dutyEvents }, Option.none) := by
  simp [RGBPixel.write, RGBPixel.dutyCall, hr, hg, hb, RGBPixel.dutyEvents]

/-- When the red collaborator fails, `write` raises at the first duty call
and delivers nothing. -/
lemma write_red_fails (p : RGBPixel) (hr : p.red.fails = true) :
    p.write = (p, some PyErr.hwFault) := by
  simp [RGBPixel.write, RGBPixel.dutyCall, hr]

/-- When the green collaborator fails (red succeeding), `write` raises after
delivering only the red duty value. -/
lemma write_green_fails (p : RGBPixel) (hr : p.red.fails = false)
    (hg : p.green.fails = true) :
    p.write = ({ p with trace := p.trace ++ [HWEvent.duty .red p.dutyValues.1] },
      some PyErr.hwFault) := by
  simp [RGBPixel.write, RGBPixel.dutyCall, hr, hg]

/-- When the blue collaborator fails (red and green succeeding), `write`
raises after delivering the red and green duty values. -/
lemma write_blue_fails (p : RGBPixel) (hr : p.red.fails = false)
    (hg : p.green.fails = false) (hb : p.blue.fails = true) :
    p.write = ({ p with trace := p.trace
        ++ [HWEvent.duty .red p.dutyValues.1, HWEvent.duty .green p.dutyValues.2.1] },
      some PyErr.hwFault) := by
  simp [RGBPixel.write, RGBPixel.dutyCall, hr, hg, hb]

/-- C4: within one commit the duty writes occur in the fixed order red,
green, blue; a failing set-duty call propagates immediately (no retry, no
further writes), and the channels already written in that commit remain
written (no rollback). -/
theorem write_order_and_failure (p : RGBPixel) :
    (p.red.fails = false → p.green.fails = false → p.blue.fails = false →
      p.write = ({ p with trace := p.trace
          ++ [HWEvent.duty .red p.dutyValues.1, HWEvent.duty .green p.dutyValues.2.1,
              HWEvent.duty .blue p.dutyValues.2.2] }, Option.none))
    ∧ (p.red.fails = true → p.write = (p, some PyErr.hwFault))
    ∧ (p.red.fails = false → p.green.fails = true →
        p.write = ({ p with trace := p.trace ++ [HWEvent.duty .red p.dutyValues.1] },
          some PyErr.hwFault))
    ∧ (p.red.fails = false → p.green.fails = false → p.blue.fails = true →
        p.write = ({ p with trace := p.trace
            ++ [HWEvent.duty .red p.dutyValues.1, HWEvent.duty .green p.dutyValues.2.1] },
          some PyErr.hwFault)) := by
  refine ⟨fun hr hg hb => ?_, write_red_fails p, write_green_fails p, write_blue_fails p⟩
  simpa [RGBPixel.dutyEvents] using write_ok p hr hg hb

/-- A concrete pixel whose blue collaborator fails, for exercising the
failure path of `write`. -/
def pixelBlueFault : RGBPixel :=
  { scaler := .none, red := ⟨255, false⟩, green := ⟨0, false⟩,
    blue := ⟨128, true⟩, trace := [] }

/-- Witness for C4: on `pixelBlueFault`, red and green are delivered in
order and the blue failure propagates with no rollback. -/
theorem write_order_and_failure_witness :
    pixelBlueFault.write
      = ({ pixelBlueFault with trace := [HWEvent.duty .red 1023, HWEvent.duty .green 0] },
         some PyErr.hwFault) := by
  have h := (write_order_and_failure pixelBlueFault).2.2.2 rfl rfl rfl
  exact h

/-- A concrete pixel whose collaborators all succeed. -/
def pixelGood : RGBPixel :=
  { scaler := .none, red := ⟨255, false⟩, green := ⟨0, false⟩,
    blue := ⟨128, false⟩, trace := [] }

/-- C9: with all collaborators healthy, committing twice with no intervening
set appends the same duty-event sequence twice, and `write` leaves the
stored color and the scaler unchanged. -/
theorem commit_idempotent (p : RGBPixel) (hr : p.red.fails = false)
    (hg : p.green.fails = false) (hb : p.blue.fails = false) :
    p.write = ({ p with trace := p.trace ++ p.dutyEvents }, Option.none)
    ∧ (p.write).1.write
        = ({ p with trace := p.trace ++ p.dutyEvents ++ p.dutyEvents }, Option.none)
    ∧ (p.write).1.scaler = p.scaler
    ∧ (p.write).1.red.value = p.red.value
    ∧ (p.write).1.green.value = p.green.value
    ∧ (p.write).1.blue.value = p.blue.value := by
  have h1 := write_ok p hr hg hb
  refine ⟨h1, ?_, by simp [h1], by simp [h1], by simp [h1], by simp [h1]⟩
  rw [h1]
  have h2 := write_ok { p with trace := p.trace ++ p.dutyEvents } hr hg hb
  simpa [dutyEvents_trace, List.append_assoc] using h2

/-- Witness for C9 at the concrete pixel `pixelGood`. -/
theorem commit_idempotent_witness :
    (pixelGood.write).1.write
      = ({ pixelGood with
            trace := pixelGood.trace ++ pixelGood.dutyEvents ++ pixelGood.dutyEvents },
         Option.none) :=
  (commit_idempotent pixelGood rfl rfl rfl).2.1

/-- C2: after `set(0, v)` on any integer triple (negative and above-255
components included), `get(0)` returns the componentwise
`normalize(x) = ((x % 256) + 256) % 256`, and each returned component lies
in [0,255]. -/
theorem set_then_get (p : RGBPixel) (v0 v1 v2 : ℤ) :
    (p.setitem 0 [v0, v1, v2]).2 = Option.none
    ∧ (p.setitem 0 [v0, v1, v2]).1.getitem 0
        = Except.ok (specNormalize v0, specNormalize v1, specNormalize v2)
    ∧ (0 ≤ specNormalize v0 ∧ specNormalize v0 ≤ 255)
    ∧ (0 ≤ specNormalize v1 ∧ specNormalize v1 ≤ 255)
    ∧ (0 ≤ specNormalize v2 ∧ specNormalize v2 ≤ 255) := by
  refine ⟨?_, ?_, ?_, ?_, ?_⟩ <;>
    simp [RGBPixel.setitem, RGBPixel.getitem, specNormalize_eq] <;> omega

/-- C6: any index other than 0 (negative included) makes both `get` and
`set` fail with the strip IndexError, and the failing `set` leaves the
object unchanged. -/
theorem index_out_of_range (p : RGBPixel) (i : ℤ) (v : List ℤ) (h : i ≠ 0) :
    p.getitem i = Except.error (PyErr.indexError "Strip index out of range")
    ∧ p.setitem i v = (p, some (PyErr.indexError "Strip index out of range")) := by
  constructor <;> simp [RGBPixel.getitem, RGBPixel.setitem, h]

/-- Witness for C6 at the concrete indices -1 and 5. -/
theorem index_out_of_range_witness :
    pixelGood.getitem (-1) = Except.error (PyErr.indexError "Strip index out of range")
    ∧ pixelGood.setitem 5 [1, 2, 3]
        = (pixelGood, some (PyErr.indexError "Strip index out of range")) :=
  ⟨(index_out_of_range pixelGood (-1) [] (by decide)).1,
   (index_out_of_range pixelGood 5 [1, 2, 3] (by decide)).2⟩

/-- C7: constructing with a pixel count other than 1, or bytes-per-pixel
other than 3, fails with the corresponding ValueError; the unchanged trace
`t0` in the error shows that no PWM collaborator was created and no commit
was performed, and the `Except.error` result carries no object. -/
theorem invalid_configuration (n bpp : ℤ) (invert : Bool) (freq : ℤ) (sc : Scaler)
    (rF gF bF : Bool) (t0 : List HWEvent) :
    (n ≠ 1 → RGBPixel.init n bpp invert freq sc rF gF bF t0
        = Except.error (PyErr.valueError "Only 1 pixel long strip is supported", t0))
    ∧ (n = 1 → bpp ≠ 3 → RGBPixel.init n bpp invert freq sc rF gF bF t0
        = Except.error (PyErr.valueError "Only an RGB pixel is supported", t0)) := by
  constructor
  · intro h
    simp [RGBPixel.init, h]
  · intro h1 h2
    simp [RGBPixel.init, h1, h2]

/-- Witness for C7 at the spec's representative values n ∈ \x7b0, 2, -1\x7d
and bpp = 4. -/
theorem invalid_configuration_witness :
    RGBPixel.init 0 3 false 5000 .none false false false []
      = Except.error (PyErr.valueError "Only 1 pixel long strip is supported", [])
    ∧ RGBPixel.init 2 3 false 5000 .none false false false []
      = Except.error (PyErr.valueError "Only 1 pixel long strip is supported", [])
    ∧ RGBPixel.init (-1) 3 false 5000 .none false false false []
      = Except.error (PyErr.valueError "Only 1 pixel long strip is supported", [])
    ∧ RGBPixel.init 1 4 false 5000 .none false false false []
      = Except.error (PyErr.valueError "Only an RGB pixel is supported", []) :=
  ⟨(invalid_configuration 0 3 false 5000 .none false false false []).1 (by decide),
   (invalid_configuration 2 3 false 5000 .none false false false []).1 (by decide),
   (invalid_configuration (-1) 3 false 5000 .none false false false []).1 (by decide),
   (invalid_configuration 1 4 false 5000 .none false false false []).2 rfl (by decide)⟩

/-- C8: the set operation never touches the hardware: for any index and any value list,
the hardware trace, the scaler and the collaborator failure flags are
exactly those of the input object. -/
theorem set_no_hardware_write (p : RGBPixel) (i : ℤ) (v : List ℤ) :
    (p.setitem i v).1.trace = p.trace
    ∧ (p.setitem i v).1.scaler = p.scaler
    ∧ (p.setitem i v).1.red.fails = p.red.fails
    ∧ (p.setitem i v).1.green.fails = p.green.fails
    ∧ (p.setitem i v).1.blue.fails = p.blue.fails := by
  rcases v with _ | ⟨a, _ | ⟨b, _ | ⟨c, rest⟩⟩⟩ <;>
    · unfold RGBPixel.setitem
      split <;> simp

/-- C10: a too-short value partially updates the store before the IndexError
from the missing component: an empty value changes nothing, a one-component
value overwrites red, a two-component value overwrites red and green. -/
theorem set_short_value (p : RGBPixel) (v0 v1 : ℤ) :
    p.setitem 0 [] = (p, some (PyErr.indexError "tuple index out of range"))
    ∧ p.setitem 0 [v0]
        = ({ p with red := { p.red with value := v0 % 256 } },
           some (PyErr.indexError "tuple index out of range"))
    ∧ p.setitem 0 [v0, v1]
        = ({ p with red := { p.red with value := v0 % 256 },
                    green := { p.green with value := v1 % 256 } },
           some (PyErr.indexError "tuple index out of range")) := by
  refine ⟨?_, ?_, ?_⟩ <;> simp [RGBPixel.setitem]

/-- Python's round of an exact integer is that integer. -/
lemma pyRound_intCast (n : ℤ) : pyRound (n : ℚ) = n := by
  simp [pyRound, Int.floor_intCast]

/-- Python's round of zero is zero. -/
lemma pyRound_zero : pyRound 0 = 0 := by
  simpa using pyRound_intCast 0

/-- The linear-scaler scenario pixel of the spec: multipliers
(0.1, 0.4, 0.9) and stored color (100, 100, 100). -/
def pixelLinear : RGBPixel :=
  { scaler := .linear (1/10) (2/5) (9/10)
    red := ⟨100, false⟩, green := ⟨100, false⟩, blue := ⟨100, false⟩, trace := [] }

/-- C3: with a tuple scaler, commit multiplies each stored channel by its
multiplier and rounds to nearest before bit expansion; for multipliers
(0.1, 0.4, 0.9) and stored color (100, 100, 100) the scaled values are
exactly (10, 40, 90) and each channel is delivered the expansion of its
scaled value. -/
theorem linear_scaler_commit :
    (∀ (m0 m1 m2 : ℚ) (r g b : Chan) (tr : List HWEvent),
        RGBPixel.scaledValues ⟨Scaler.linear m0 m1 m2, r, g, b, tr⟩
          = (pyRound (r.value * m0), pyRound (g.value * m1), pyRound (b.value * m2))
      ∧ RGBPixel.dutyValues ⟨Scaler.linear m0 m1 m2, r, g, b, tr⟩
          = (expand10 (pyRound (r.value * m0)), expand10 (pyRound (g.value * m1)),
             expand10 (pyRound (b.value * m2))))
    ∧ pixelLinear.scaledValues = (10, 40, 90)
    ∧ pixelLinear.dutyValues = (expand10 10, expand10 40, expand10 90)
    ∧ (expand10 10, expand10 40, expand10 90) = ((40 : ℤ), (160 : ℤ), (361 : ℤ))
    ∧ pixelLinear.write
        = ({ pixelLinear with trace := [HWEvent.duty .red (expand10 10),
            HWEvent.duty .green (expand10 40), HWEvent.duty .blue (expand10 90)] },
           Option.none) := by
  have e0 : ((100 : ℤ) : ℚ) * (1/10) = ((10 : ℤ) : ℚ) := by norm_num
  have e1 : ((100 : ℤ) : ℚ) * (2/5) = ((40 : ℤ) : ℚ) := by norm_num
  have e2 : ((100 : ℤ) : ℚ) * (9/10) = ((90 : ℤ) : ℚ) := by norm_num
  have hs : pixelLinear.scaledValues = (10, 40, 90) := by
    show (pyRound (((100 : ℤ) : ℚ) * (1/10)), pyRound (((100 : ℤ) : ℚ) * (2/5)),
        pyRound (((100 : ℤ) : ℚ) * (9/10))) = (10, 40, 90)
    rw [e0, e1, e2, pyRound_intCast, pyRound_intCast, pyRound_intCast]
  have hd : pixelLinear.dutyValues = (expand10 10, expand10 40, expand10 90) := by
    simp [RGBPixel.dutyValues, hs]
  refine ⟨fun m0 m1 m2 r g b tr => ⟨rfl, rfl⟩, hs, hd, by decide, ?_⟩
  have hw := write_ok pixelLinear rfl rfl rfl
  rw [hw]
  simp [RGBPixel.dutyEvents, hd, show pixelLinear.trace = [] from rfl]

/-- C5 counterexample: a functional scaler is applied unchecked during the
construction-time commit, so construction with the constant scaler
`fun _ => (255, 255, 255)` delivers duty 1023 (full on) to every channel,
not the off value `expand10 0 = 0`, even though the stored Color is
(0, 0, 0). -/
theorem init_off_state_counterexample :
    RGBPixel.init 1 3 false 5000 (Scaler.fn (fun _ => (255, 255, 255))) false false false []
      = Except.ok
          { scaler := Scaler.fn (fun _ => (255, 255, 255))
            red := ⟨0, false⟩
            green := ⟨0, false⟩
            blue := ⟨0, false⟩
            trace := [HWEvent.create .red 5000 0 false, HWEvent.create .green 5000 0 false,
              HWEvent.create .blue 5000 0 false, HWEvent.duty .red 1023,
              HWEvent.duty .green 1023, HWEvent.duty .blue 1023] }
    ∧ (1023 : ℤ) ≠ expand10 0 := by
  constructor
  · rfl
  · decide

/-- C5 as amended: every successful construction stores Color (0,0,0) and
performs exactly one commit (three duty events after the three PWM
creations); with the identity or a linear scaler those duty values are the
off value 0, while a functional scaler receives (0,0,0) and its result is
expanded unchecked, so the off state is guaranteed only for the first two
shapes. -/
theorem init_state_and_single_commit (sc : Scaler) (invert : Bool) (freq : ℤ)
    (t0 : List HWEvent) :
    (RGBPixel.init 1 3 invert freq sc false false false t0
      = Except.ok
          { scaler := sc
            red := { value := 0, fails := false }
            green := { value := 0, fails := false }
            blue := { value := 0, fails := false }
            trace := t0 ++ [HWEvent.create .red freq 0 invert,
                HWEvent.create .green freq 0 invert, HWEvent.create .blue freq 0 invert]
              ++ RGBPixel.dutyEvents ⟨sc, ⟨0, false⟩, ⟨0, false⟩, ⟨0, false⟩, []⟩ })
    ∧ (sc = Scaler.none →
        RGBPixel.dutyEvents ⟨sc, ⟨0, false⟩, ⟨0, false⟩, ⟨0, false⟩, []⟩
          = [HWEvent.duty .red 0, HWEvent.duty .green 0, HWEvent.duty .blue 0])
    ∧ (∀ m0 m1 m2 : ℚ, sc = Scaler.linear m0 m1 m2 →
        RGBPixel.dutyEvents ⟨sc, ⟨0, false⟩, ⟨0, false⟩, ⟨0, false⟩, []⟩
          = [HWEvent.duty .red 0, HWEvent.duty .green 0, HWEvent.duty .blue 0]) := by
  have hz : expand10 0 = 0 := by decide
  refine ⟨?_, ?_, ?_⟩
  · have hw := write_ok
      ⟨sc, ⟨0, false⟩, ⟨0, false⟩, ⟨0, false⟩,
        t0 ++ [HWEvent.create .red freq 0 invert,
          HWEvent.create .green freq 0 invert, HWEvent.create .blue freq 0 invert]⟩
      rfl rfl rfl
    simp [RGBPixel.init, hw]
    rfl
  · intro h
    subst h
    simp [RGBPixel.dutyEvents, RGBPixel.dutyValues, RGBPixel.scaledValues, hz]
  · intro m0 m1 m2 h
    subst h
    simp [RGBPixel.dutyEvents, RGBPixel.dutyValues, RGBPixel.scaledValues,
      pyRound_zero, hz]

/-- Witness for the amended C5 with the identity scaler at concrete
arguments. -/
theorem init_state_and_single_commit_witness :
    RGBPixel.init 1 3 false 5000 Scaler.none false false false []
      = Except.ok
          { scaler := Scaler.none
            red := { value := 0, fails := false }
            green := { value := 0, fails := false }
            blue := { value := 0, fails := false }
            trace := [HWEvent.create .red 5000 0 false, HWEvent.create .green 5000 0 false,
                HWEvent.create .blue 5000 0 false]
              ++ RGBPixel.dutyEvents ⟨Scaler.none, ⟨0, false⟩, ⟨0, false⟩, ⟨0, false⟩, []⟩ }
    ∧ RGBPixel.dutyEvents ⟨Scaler.none, ⟨0, false⟩, ⟨0, false⟩, ⟨0, false⟩, []⟩
      = [HWEvent.duty .red 0, HWEvent.duty .green 0, HWEvent.duty .blue 0] :=
  ⟨(init_state_and_single_commit Scaler.none false 5000 []).1,
   (init_state_and_single_commit Scaler.none false 5000 []).2.1 rfl⟩
